import Mathlib

/-!
Verification of the ABI Surface Compliance Checker
(`OrthancFramework/Resources/CheckOrthancFrameworkSymbols.py`).

The Python script walks a libclang cursor tree.  We embed the part of the
cursor tree that the script inspects as a mutual inductive (`Cursor`,
`CursorList`), and translate the three traversal functions `ReportProblem`,
`ExploreClass` and `ExploreNamespace` line by line.  Python exceptions
(`raise Exception(...)` and the `IndexError` that unguarded string indexing
can raise) are modelled with `Except PyErr`; the process-wide globals
`FILES`, `COUNT`, `ALL_TYPES` together with the lines printed on stdout are
threaded as an explicit `Globals` state.  When an exception escapes, the
script dies with a traceback before any of the summary printing runs, so the
partially mutated globals are unobservable; the `Except` error therefore
carries no state.  File paths are kept as opaque strings (`os.path.normpath`
of an already printable path is not modelled, no claim depends on it), and
Python's `str.isupper()` on a single character agrees with `Char.isUpper` on
the ASCII identifiers the checker sees.
-/

inductive CursorKind where
  | NAMESPACE
  | CLASS_DECL
  | STRUCT_DECL
  | CXX_METHOD
  | CONSTRUCTOR
  | DESTRUCTOR
  | FIELD_DECL
  | VAR_DECL
  | TYPEDEF_DECL
  | ENUM_DECL
  | FUNCTION_TEMPLATE
  | FRIEND_DECL
  | FUNCTION_DECL
  | CXX_ACCESS_SPEC_DECL
  | CXX_BASE_SPECIFIER
  | VISIBILITY_ATTR
  | COMPOUND_STMT
  | USING_DECLARATION
deriving DecidableEq, Repr

inductive AccessSpecifier where
  | PUBLIC
  | PROTECTED
  | PRIVATE
deriving DecidableEq, Repr

/-- The scalar attributes of a libclang cursor that the script reads. -/
structure CursorData where
  kind : CursorKind
  spelling : String
  isDefinition : Bool
  accessSpecifier : AccessSpecifier
  isPureVirtualMethod : Bool
  isStaticMethod : Bool
  isVirtualMethod : Bool
  displayname : String
  locationFile : String
  typeGetSize : Int
deriving DecidableEq, Repr

mutual

inductive Cursor where
  | node (data : CursorData) (children : CursorList)
deriving Repr

inductive CursorList where
  | nil
  | cons (head : Cursor) (tail : CursorList)
deriving Repr

end

def Cursor.data : Cursor → CursorData
  | Cursor.node d _ => d

def Cursor.children : Cursor → CursorList
  | Cursor.node _ cs => cs

def Cursor.kind (c : Cursor) : CursorKind := c.data.kind

def Cursor.spelling (c : Cursor) : String := c.data.spelling

def Cursor.isDefinition (c : Cursor) : Bool := c.data.isDefinition

def Cursor.accessSpecifier (c : Cursor) : AccessSpecifier := c.data.accessSpecifier

def Cursor.isPureVirtualMethod (c : Cursor) : Bool := c.data.isPureVirtualMethod

def Cursor.isStaticMethod (c : Cursor) : Bool := c.data.isStaticMethod

def Cursor.isVirtualMethod (c : Cursor) : Bool := c.data.isVirtualMethod

def Cursor.displayname (c : Cursor) : String := c.data.displayname

def Cursor.locationFile (c : Cursor) : String := c.data.locationFile

def Cursor.typeGetSize (c : Cursor) : Int := c.data.typeGetSize

def CursorList.any (l : CursorList) (p : Cursor → Bool) : Bool :=
  match l with
  | CursorList.nil => false
  | CursorList.cons c rest => p c || CursorList.any rest p

def CursorList.length : CursorList → Nat
  | CursorList.nil => 0
  | CursorList.cons _ rest => CursorList.length rest + 1

/-- `list(...)[... last ...]`: the value left in a Python `for` loop variable
after iterating a nonempty list is its last element; `d` is returned for the
empty list (never reached where this is used). -/
def CursorList.getLastD (l : CursorList) (d : Cursor) : Cursor :=
  match l with
  | CursorList.nil => d
  | CursorList.cons c CursorList.nil => c
  | CursorList.cons _ (CursorList.cons c rest) =>
      CursorList.getLastD (CursorList.cons c rest) d

def defaultCursorData : CursorData :=
  { kind := CursorKind.COMPOUND_STMT
    spelling := ""
    isDefinition := false
    accessSpecifier := AccessSpecifier.PRIVATE
    isPureVirtualMethod := false
    isStaticMethod := false
    isVirtualMethod := false
    displayname := ""
    locationFile := ""
    typeGetSize := 0 }

def defaultCursor : Cursor := Cursor.node defaultCursorData CursorList.nil

/-- The exceptions the script can raise during traversal. -/
inductive PyErr where
  /-- `raise Exception()` - the safety check at the top of `ExploreClass`. -/
  | plainException
  /-- `raise Exception('Unsupported: %s, %s' % (i.kind, i.location))`. -/
  | unsupported (kind : CursorKind) (location : String)
  /-- Python `IndexError` from an out-of-range string index. -/
  | indexError
deriving DecidableEq, Repr

/-- The process-wide globals `FILES`, `COUNT`, `ALL_TYPES`, plus the lines
printed on stdout so far. -/
structure Globals where
  FILES : List String
  COUNT : Nat
  ALL_TYPES : List String
  output : List String
deriving DecidableEq, Repr

def initGlobals : Globals :=
  { FILES := [], COUNT := 0, ALL_TYPES := [], output := [] }

/-- `ReportProblem(message, fqn, cursor)` (script lines 115-120). -/
def ReportProblem (message : String) (fqn : List String) (cursor : Cursor)
    (s : Globals) : Globals :=
  { s with
    FILES := s.FILES ++ [cursor.locationFile]
    COUNT := s.COUNT + 1
    output := s.output ++
      [message ++ ": " ++ String.intercalate "::" fqn ++ "::" ++
        cursor.spelling ++ "()"] }

/-- `i.kind == clang.cindex.CursorKind.VISIBILITY_ATTR and i.spelling == 'default'`. -/
def isDefaultVisibilityAttr (i : Cursor) : Bool :=
  decide (i.kind = CursorKind.VISIBILITY_ATTR) && decide (i.spelling = "default")

/-- `j.kind == clang.cindex.CursorKind.COMPOUND_STMT`. -/
def isCompoundStmt (j : Cursor) : Bool :=
  decide (j.kind = CursorKind.COMPOUND_STMT)

/-- Python `s[i]`, which raises `IndexError` when out of range. -/
def stringIndex (s : String) (i : Nat) : Except PyErr Char :=
  match s.data.get? i with
  | some c => Except.ok c
  | none => Except.error PyErr.indexError

/-- The interface-pattern test of script lines 161-163:
`child.kind == CLASS_DECL and child.spelling[0] == 'I' and
child.spelling[1].isupper()`, with Python's left-to-right short-circuit
evaluation and its possible `IndexError`. -/
def isInterfaceName (child : Cursor) : Except PyErr Bool :=
  if child.kind = CursorKind.CLASS_DECL then
    match stringIndex child.spelling 0 with
    | Except.error e => Except.error e
    | Except.ok c0 =>
        if c0 = 'I' then
          match stringIndex child.spelling 1 with
          | Except.error e => Except.error e
          | Except.ok c1 => Except.ok c1.isUpper
        else
          Except.ok false
  else
    Except.ok false

/-- The whitelisted friend signature of script lines 268-271. -/
def FRIEND_WHITELIST : List String :=
  ["operator<<(std::ostream &, const Orthanc::DicomTag &)"]

/-- The destructor-body test of script lines 189-193: the children must be
exactly one compound statement with zero statements inside. -/
def destructorHasSingleEmptyBody (i : Cursor) : Bool :=
  match i.children with
  | CursorList.cons b CursorList.nil =>
      isCompoundStmt b && decide (b.children.length = 0)
  | _ => false

mutual

/-- `ExploreClass(child, fqn)` (script lines 123-284). -/
def ExploreClass (child : Cursor) (fqn : List String) (s : Globals) :
    Except PyErr Globals :=
  match child with
  | Cursor.node d cs =>
    -- Safety check
    if ¬ (d.kind = CursorKind.CLASS_DECL ∨ d.kind = CursorKind.STRUCT_DECL) then
      Except.error PyErr.plainException
    -- Ignore forward declaration of classes
    else if d.isDefinition = false then
      Except.ok s
    else
      let visible := cs.any isDefaultVisibilityAttr
      if visible = false then
        Except.ok s
      else
        let s1 := { s with ALL_TYPES := s.ALL_TYPES ++ [String.intercalate "::" fqn] }
        match isInterfaceName (Cursor.node d cs) with
        | Except.error e => Except.error e
        | Except.ok true =>
            match ExploreInterfaceMembers fqn cs true false s1 with
            | Except.error e => Except.error e
            | Except.ok (abstract, s2) =>
                if abstract then
                  Except.ok { s2 with output := s2.output ++
                    ["Detected a pure interface (this is fine): " ++
                      String.intercalate "::" fqn] }
                else
                  Except.ok (ReportProblem "Not a pure interface" fqn
                    (Cursor.node d cs) s2)
        | Except.ok false =>
            ExploreClassMembers fqn cs (decide (d.kind = CursorKind.STRUCT_DECL)) 0 0 s1

/-- The pure-interface scan of script lines 164-207: the loop body threading
`abstract`, `isPublic` and the globals over the children. -/
def ExploreInterfaceMembers (fqn : List String) (l : CursorList)
    (abstract isPublic : Bool) (s : Globals) : Except PyErr (Bool × Globals) :=
  match l with
  | CursorList.nil => Except.ok (abstract, s)
  | CursorList.cons i rest =>
      if i.kind = CursorKind.VISIBILITY_ATTR then      -- "default"
        ExploreInterfaceMembers fqn rest abstract isPublic s
      else if i.kind = CursorKind.CXX_ACCESS_SPEC_DECL then
        ExploreInterfaceMembers fqn rest abstract
          (decide (i.accessSpecifier = AccessSpecifier.PUBLIC)) s
      else if i.kind = CursorKind.CXX_BASE_SPECIFIER then
        ExploreInterfaceMembers fqn rest
          (if i.spelling ≠ "boost::noncopyable" then false else abstract) isPublic s
      else if isPublic then
        if i.kind = CursorKind.CXX_METHOD then
          if i.isPureVirtualMethod then
            ExploreInterfaceMembers fqn rest abstract isPublic s  -- pure virtual is ok
          else if i.isStaticMethod then
            -- static method without an inline implementation is ok
            ExploreInterfaceMembers fqn rest
              (if i.children.any isCompoundStmt then false else abstract) isPublic s
          else
            ExploreInterfaceMembers fqn rest false isPublic s
        else if i.kind = CursorKind.DESTRUCTOR ∧ i.isVirtualMethod = true then
          -- The destructor must be virtual, and must do nothing
          ExploreInterfaceMembers fqn rest
            (if destructorHasSingleEmptyBody i then abstract else false) isPublic s
        else if i.kind = CursorKind.CLASS_DECL then
          match ExploreClass i (fqn ++ [i.spelling]) s with
          | Except.error e => Except.error e
          | Except.ok s2 => ExploreInterfaceMembers fqn rest abstract isPublic s2
        else if i.kind = CursorKind.TYPEDEF_DECL ∨ i.kind = CursorKind.ENUM_DECL then
          ExploreInterfaceMembers fqn rest abstract isPublic s
        else
          ExploreInterfaceMembers fqn rest false isPublic s
      else
        ExploreInterfaceMembers fqn rest abstract isPublic s

/-- The ordinary-class scan of script lines 210-282: the loop body threading
`isPublic`, `membersCount`, `membersSize` (dead locals kept for fidelity) and
the globals over the children. -/
def ExploreClassMembers (fqn : List String) (l : CursorList) (isPublic : Bool)
    (membersCount : Nat) (membersSize : Int) (s : Globals) : Except PyErr Globals :=
  match l with
  | CursorList.nil => Except.ok s
  | CursorList.cons i rest =>
      if i.kind = CursorKind.VISIBILITY_ATTR ∨
         i.kind = CursorKind.CXX_BASE_SPECIFIER then  -- "default" / base class
        ExploreClassMembers fqn rest isPublic membersCount membersSize s
      else if i.kind = CursorKind.CXX_ACCESS_SPEC_DECL then
        ExploreClassMembers fqn rest
          (decide (i.accessSpecifier = AccessSpecifier.PUBLIC))
          membersCount membersSize s
      else if i.kind = CursorKind.CLASS_DECL then
        -- This is a subclass
        if isPublic then
          match ExploreClass i (fqn ++ [i.spelling]) s with
          | Except.error e => Except.error e
          | Except.ok s2 =>
              ExploreClassMembers fqn rest isPublic membersCount membersSize s2
        else
          ExploreClassMembers fqn rest isPublic membersCount membersSize s
      else if i.kind = CursorKind.CXX_METHOD ∨ i.kind = CursorKind.CONSTRUCTOR ∨
              i.kind = CursorKind.DESTRUCTOR then
        if isPublic then
          if i.children.any isCompoundStmt then
            ExploreClassMembers fqn rest isPublic membersCount membersSize
              (ReportProblem "Exported public method with an implementation" fqn i s)
          else
            ExploreClassMembers fqn rest isPublic membersCount membersSize s
        else
          ExploreClassMembers fqn rest isPublic membersCount membersSize s
      else if i.kind = CursorKind.VAR_DECL then
        Except.error (PyErr.unsupported i.kind i.locationFile)
      else if i.kind = CursorKind.FUNCTION_TEMPLATE then
        -- An inline function template is OK, as it is not added to
        -- a shared library, but compiled by the client of the library
        if isPublic then
          let s2 := { s with output := s.output ++
            ["Detected a template function (this is fine, but avoid it as much as possible): " ++
              String.intercalate "::" (fqn ++ [i.spelling])] }
          if i.children.any isCompoundStmt then
            ExploreClassMembers fqn rest isPublic membersCount membersSize s2
          else
            ExploreClassMembers fqn rest isPublic membersCount membersSize
              (ReportProblem "Exported template function without an inline implementation"
                fqn i s2)
        else
          ExploreClassMembers fqn rest isPublic membersCount membersSize s
      else if i.kind = CursorKind.TYPEDEF_DECL ∨ i.kind = CursorKind.ENUM_DECL then
        ExploreClassMembers fqn rest isPublic membersCount membersSize s
      else if i.kind = CursorKind.FRIEND_DECL then
        let friendOk : Bool :=
          match i.children with
          | CursorList.cons c CursorList.nil =>
              decide (c.displayname ∈ FRIEND_WHITELIST)
          | _ => false
        if isPublic && !friendOk then
          Except.error (PyErr.unsupported i.kind i.locationFile)
        else
          ExploreClassMembers fqn rest isPublic membersCount membersSize s
      else if i.kind = CursorKind.FIELD_DECL then
        ExploreClassMembers fqn rest isPublic (membersCount + 1)
          (if i.typeGetSize > 0 then membersSize + i.typeGetSize else membersSize) s
      else
        if isPublic then
          Except.error (PyErr.unsupported i.kind i.locationFile)
        else
          ExploreClassMembers fqn rest isPublic membersCount membersSize s

end

mutual

/-- `ExploreNamespace(node, namespace)` (script lines 287-309). -/
def ExploreNamespace (node : Cursor) (ns : List String) (s : Globals) :
    Except PyErr Globals :=
  match node with
  | Cursor.node _ cs => ExploreNamespaceChildren cs ns s

/-- The loop body of `ExploreNamespace`, one child at a time. -/
def ExploreNamespaceChildren (l : CursorList) (ns : List String) (s : Globals) :
    Except PyErr Globals :=
  match l with
  | CursorList.nil => Except.ok s
  | CursorList.cons child rest =>
      if child.kind = CursorKind.NAMESPACE then
        match ExploreNamespace child (ns ++ [child.spelling]) s with
        | Except.error e => Except.error e
        | Except.ok s2 => ExploreNamespaceChildren rest ns s2
      else if child.kind = CursorKind.CLASS_DECL ∨
              child.kind = CursorKind.STRUCT_DECL then
        match ExploreClass child (ns ++ [child.spelling]) s with
        | Except.error e => Except.error e
        | Except.ok s2 => ExploreNamespaceChildren rest ns s2
      else if child.kind = CursorKind.FUNCTION_DECL then
        if child.children.any isDefaultVisibilityAttr &&
           child.children.any isCompoundStmt then
          -- Script line 309 passes `i` to ReportProblem: the inner loop
          -- variable leaked out of the `for i in child.get_children()` loop,
          -- which after the loop holds the LAST child of the function - not
          -- the function cursor itself.  The guard guarantees the child list
          -- is nonempty, so the default is never returned.
          ExploreNamespaceChildren rest ns
            (ReportProblem "Exported public function with an implementation"
              (ns ++ [child.spelling]) (child.children.getLastD defaultCursor) s)
        else
          ExploreNamespaceChildren rest ns s
      else
        ExploreNamespaceChildren rest ns s

end

/-- The top-level loop of script lines 315-318: only the namespace named
`Orthanc` is explored. -/
def TopLevelLoop (l : CursorList) (s : Globals) : Except PyErr Globals :=
  match l with
  | CursorList.nil => Except.ok s
  | CursorList.cons node rest =>
      if node.kind = CursorKind.NAMESPACE ∧ node.spelling = "Orthanc" then
        match ExploreNamespace node ["Orthanc"] s with
        | Except.error e => Except.error e
        | Except.ok s2 => TopLevelLoop rest s2
      else
        TopLevelLoop rest s

/-- Python string comparison is lexicographic on code points; `charListLt`
is that order on the code-point lists of two strings. -/
def charListLt : List Char → List Char → Bool
  | [], [] => false
  | [], _ :: _ => true
  | _ :: _, [] => false
  | a :: as, b :: bs =>
      if a.toNat < b.toNat then true
      else if b.toNat < a.toNat then false
      else charListLt as bs

def pyStrLt (a b : String) : Bool := charListLt a.data b.data

def pyStrLe (a b : String) : Bool := !(pyStrLt b a)

/-- The order `sorted(...)` sorts by, as a binary relation. -/
def pyLeRel : String → String → Prop := fun a b => pyStrLe a b = true

instance pyLeRelDecidable : DecidableRel pyLeRel := fun a b => by
  unfold pyLeRel; infer_instance

theorem charListLt_asymm : ∀ a b : List Char,
    charListLt a b = true → charListLt b a = false := by
  intro a
  induction a with
  | nil => intro b _; cases b <;> simp [charListLt]
  | cons x as ih =>
      intro b h
      cases b with
      | nil => simp [charListLt] at h
      | cons y bs =>
          simp only [charListLt] at h ⊢
          by_cases h1 : x.toNat < y.toNat
          · simp [h1, Nat.lt_asymm h1]
          · by_cases h2 : y.toNat < x.toNat
            · simp [h1, h2] at h
            · simp [h1, h2] at h ⊢
              exact ih bs h

theorem charListLt_neg_trans : ∀ a b c : List Char,
    charListLt b a = false → charListLt c b = false → charListLt c a = false := by
  intro a
  induction a with
  | nil =>
      intro b c _ _
      cases c <;> simp [charListLt]
  | cons x as ih =>
      intro b c h1 h2
      cases b with
      | nil => simp [charListLt] at h1
      | cons z bs =>
          cases c with
          | nil => simp [charListLt] at h2
          | cons y cs =>
              simp only [charListLt] at h1 h2 ⊢
              by_cases hza : z.toNat < x.toNat
              · simp [hza] at h1
              · by_cases hyz : y.toNat < z.toNat
                · simp [hyz] at h2
                · by_cases hyx : y.toNat < x.toNat
                  · omega
                  · simp only [hyx, if_false]
                    by_cases hxy : x.toNat < y.toNat
                    · simp [hxy]
                    · simp only [hxy, if_false]
                      have hxz : ¬ x.toNat < z.toNat := by omega
                      have hzy : ¬ z.toNat < y.toNat := by omega
                      simp [hza, hxz] at h1
                      simp [hyz, hzy] at h2
                      exact ih bs cs h1 h2

instance pyLeRelTotal : IsTotal String pyLeRel := by
  constructor
  intro a b
  unfold pyLeRel pyStrLe
  by_cases h : pyStrLt b a = true
  · right
    have := charListLt_asymm _ _ h
    unfold pyStrLt at this ⊢
    simp [this]
  · left
    simp [Bool.not_eq_true] at h
    simp [h]

instance pyLeRelTrans : IsTrans String pyLeRel := by
  constructor
  intro a b c h1 h2
  unfold pyLeRel pyStrLe at h1 h2 ⊢
  simp only [Bool.not_eq_true'] at h1 h2 ⊢
  exact charListLt_neg_trans _ _ _ h1 h2

/-- `sorted(list(set(FILES)))` (script line 330).  A Python `set` forgets
order and multiplicity and `sorted` then lists the distinct elements in
ascending order, so the result equals a sort of `dedup` (which keeps one
copy of each element). -/
def sortedUnique (l : List String) : List String :=
  List.insertionSort pyLeRel l.dedup

/-- The summary printed by script lines 327-333, appended to everything
printed during the traversal.  Each Python `print` that starts with a
newline contributes an extra empty line. -/
def FinalReport (s : Globals) : List String :=
  s.output ++
    ["", "Total of possibly problematic methods: " ++ toString s.COUNT, "",
      "Problematic files:", ""] ++
    sortedUnique s.FILES ++ [""]

/-- A whole run of the script over a parsed translation unit: the initial
`print('')` of line 313, the top-level loop, then the summary.  The result
is the full list of lines printed on stdout (the optional size-table side
output is not modelled; no claim concerns it). -/
def RunScript (tu : Cursor) : Except PyErr (List String) :=
  match TopLevelLoop tu.children { initGlobals with output := [""] } with
  | Except.error e => Except.error e
  | Except.ok s => Except.ok (FinalReport s)

/-!
Concrete declaration trees used to evaluate the model on small inputs.
They mirror the shapes discussed in the specification's testable
properties: exported classes with inline methods, interface-named classes,
nested structs, friends, free functions.
-/

def visibilityDefault : Cursor :=
  Cursor.node { defaultCursorData with
    kind := CursorKind.VISIBILITY_ATTR
    spelling := "default" } CursorList.nil

def accessSpec (a : AccessSpecifier) : Cursor :=
  Cursor.node { defaultCursorData with
    kind := CursorKind.CXX_ACCESS_SPEC_DECL
    accessSpecifier := a } CursorList.nil

def compoundStmt (file : String) : Cursor :=
  Cursor.node { defaultCursorData with
    kind := CursorKind.COMPOUND_STMT
    locationFile := file } CursorList.nil

/-- A method with an inline (compound-statement) body. -/
def inlineMethod (name file : String) : Cursor :=
  Cursor.node { defaultCursorData with
    kind := CursorKind.CXX_METHOD
    spelling := name
    locationFile := file } (CursorList.cons (compoundStmt file) CursorList.nil)

/-- An exported (default-visibility) class definition with the given members
after a `public:` access specifier. -/
def exportedClass (name file : String) (members : CursorList) : Cursor :=
  Cursor.node { defaultCursorData with
    kind := CursorKind.CLASS_DECL
    spelling := name
    isDefinition := true
    locationFile := file }
    (CursorList.cons visibilityDefault
      (CursorList.cons (accessSpec AccessSpecifier.PUBLIC) members))

/-- A class without any visibility attribute, containing both a public inline
method and a `VAR_DECL` member - constructs that would be a violation and an
unrecognized/unsupported construct respectively, were the class scanned. -/
def hiddenWidget : Cursor :=
  Cursor.node { defaultCursorData with
    kind := CursorKind.CLASS_DECL
    spelling := "Hidden"
    isDefinition := true
    locationFile := "Hidden.h" }
    (CursorList.cons (accessSpec AccessSpecifier.PUBLIC)
      (CursorList.cons (inlineMethod "Bad" "Hidden.h")
        (CursorList.cons (Cursor.node { defaultCursorData with
          kind := CursorKind.VAR_DECL
          spelling := "counter"
          locationFile := "Hidden.h" } CursorList.nil) CursorList.nil)))

/-- `static int counter;` - a `VAR_DECL` class member. -/
def staticCounterVar : Cursor :=
  Cursor.node { defaultCursorData with
    kind := CursorKind.VAR_DECL
    spelling := "counter"
    locationFile := "Widget2.h" } CursorList.nil

/-- An exported class whose public section holds a static member variable. -/
def widgetWithStaticVar : Cursor :=
  exportedClass "Widget2" "Widget2.h" (CursorList.cons staticCounterVar CursorList.nil)

/-- An exported nested struct definition. -/
def nestedStructInner : Cursor :=
  Cursor.node { defaultCursorData with
    kind := CursorKind.STRUCT_DECL
    spelling := "Inner"
    isDefinition := true
    locationFile := "Outer.h" }
    (CursorList.cons visibilityDefault CursorList.nil)

/-- An exported class whose public section holds a nested struct. -/
def outerWithPublicStruct : Cursor :=
  exportedClass "Outer" "Outer.h" (CursorList.cons nestedStructInner CursorList.nil)

/-- The declaration behind the whitelisted friend. -/
def dicomTagFriendFn : Cursor :=
  Cursor.node { defaultCursorData with
    kind := CursorKind.FUNCTION_DECL
    spelling := "operator<<"
    displayname := "operator<<(std::ostream &, const Orthanc::DicomTag &)"
    locationFile := "DicomTag.h" } CursorList.nil

/-- A friend declaration whose single rendered declaration matches the
whitelist. -/
def whitelistedFriend : Cursor :=
  Cursor.node { defaultCursorData with
    kind := CursorKind.FRIEND_DECL
    locationFile := "DicomTag.h" }
    (CursorList.cons dicomTagFriendFn CursorList.nil)

/-- A public static method whose inline body is EMPTY (a compound statement
with zero statements inside). -/
def emptyBodyStaticMethod : Cursor :=
  Cursor.node { defaultCursorData with
    kind := CursorKind.CXX_METHOD
    spelling := "Create"
    isStaticMethod := true
    locationFile := "IFoo.h" }
    (CursorList.cons (compoundStmt "IFoo.h") CursorList.nil)

/-- An interface-named exported class whose only public member is a static
method with an empty inline body. -/
def ifooWithEmptyStatic : Cursor :=
  Cursor.node { defaultCursorData with
    kind := CursorKind.CLASS_DECL
    spelling := "IFoo"
    isDefinition := true
    locationFile := "IFoo.h" }
    (CursorList.cons visibilityDefault
      (CursorList.cons (accessSpec AccessSpecifier.PUBLIC)
        (CursorList.cons emptyBodyStaticMethod CursorList.nil)))

/-- A public virtual destructor carrying NO body at all (no children). -/
def bodylessVirtualDestructor : Cursor :=
  Cursor.node { defaultCursorData with
    kind := CursorKind.DESTRUCTOR
    spelling := "~IBar"
    isVirtualMethod := true
    locationFile := "IBar.h" } CursorList.nil

/-- An interface-named exported class whose only public member is a virtual
destructor without a body. -/
def ibarWithBodylessDestructor : Cursor :=
  Cursor.node { defaultCursorData with
    kind := CursorKind.CLASS_DECL
    spelling := "IBar"
    isDefinition := true
    locationFile := "IBar.h" }
    (CursorList.cons visibilityDefault
      (CursorList.cons (accessSpec AccessSpecifier.PUBLIC)
        (CursorList.cons bodylessVirtualDestructor CursorList.nil)))

/-- A public virtual destructor whose body is a single empty compound
statement. -/
def emptyBodyVirtualDestructor : Cursor :=
  Cursor.node { defaultCursorData with
    kind := CursorKind.DESTRUCTOR
    spelling := "~IBar"
    isVirtualMethod := true
    locationFile := "IBar.h" }
    (CursorList.cons (compoundStmt "IBar.h") CursorList.nil)

/-- The inline body of the exported free function `Foo`; as a compound
statement its own `spelling` is the empty string. -/
def fooFunctionBody : Cursor :=
  Cursor.node { defaultCursorData with
    kind := CursorKind.COMPOUND_STMT
    spelling := ""
    locationFile := "Foo.h" } CursorList.nil

/-- An exported namespace-level free function with an inline body. -/
def fooFreeFunction : Cursor :=
  Cursor.node { defaultCursorData with
    kind := CursorKind.FUNCTION_DECL
    spelling := "Foo"
    locationFile := "Foo.h" }
    (CursorList.cons visibilityDefault
      (CursorList.cons fooFunctionBody CursorList.nil))

/-- Exported class `A` with violating inline method `m`. -/
def violatingClassA : Cursor :=
  exportedClass "A" "A.h" (CursorList.cons (inlineMethod "m" "A.h") CursorList.nil)

/-- Exported class `B` with violating inline method `m`. -/
def violatingClassB : Cursor :=
  exportedClass "B" "B.h" (CursorList.cons (inlineMethod "m" "B.h") CursorList.nil)

def orthancNamespaceWith (cs : CursorList) : Cursor :=
  Cursor.node { defaultCursorData with
    kind := CursorKind.NAMESPACE
    spelling := "Orthanc" } cs

/-- Translation unit whose Orthanc namespace declares `B` before `A`. -/
def tuBA : Cursor :=
  Cursor.node defaultCursorData
    (CursorList.cons (orthancNamespaceWith
      (CursorList.cons violatingClassB (CursorList.cons violatingClassA CursorList.nil)))
      CursorList.nil)

/-- Translation unit whose Orthanc namespace declares `A` before `B`. -/
def tuAB : Cursor :=
  Cursor.node defaultCursorData
    (CursorList.cons (orthancNamespaceWith
      (CursorList.cons violatingClassA (CursorList.cons violatingClassB CursorList.nil)))
      CursorList.nil)

/-- An exported class definition whose simple name is the single letter
`I`. -/
def classNamedI : Cursor :=
  Cursor.node { defaultCursorData with
    kind := CursorKind.CLASS_DECL
    spelling := "I"
    isDefinition := true
    locationFile := "I.h" }
    (CursorList.cons visibilityDefault CursorList.nil)

/-!
The claims.
-/

/-- C1: In the ordinary-class scan of an exported, non-interface-named class,
a `Method`/`Constructor`/`Destructor` child that lies under a Public access
specifier and has an inline compound-statement body makes the checker emit
exactly one "Exported public method with an implementation" violation
carrying that member's name (one output line, `COUNT` incremented by one,
the member's file recorded once); a public such member without a body, and a
non-public one with a body, leave the diagnostics state unchanged. -/
theorem C1_public_method_with_body_reported
    (fqn : List String) (i : Cursor) (rest : CursorList) (isPublic : Bool)
    (mc : Nat) (ms : Int) (s : Globals)
    (hk : i.kind = CursorKind.CXX_METHOD ∨ i.kind = CursorKind.CONSTRUCTOR ∨
          i.kind = CursorKind.DESTRUCTOR) :
    ExploreClassMembers fqn (CursorList.cons i rest) isPublic mc ms s =
      if isPublic = true ∧ i.children.any isCompoundStmt = true then
        ExploreClassMembers fqn rest isPublic mc ms
          { s with
            FILES := s.FILES ++ [i.locationFile]
            COUNT := s.COUNT + 1
            output := s.output ++
              ["Exported public method with an implementation: " ++
                String.intercalate "::" fqn ++ "::" ++ i.spelling ++ "()"] }
      else
        ExploreClassMembers fqn rest isPublic mc ms s := by
  rcases hk with h | h | h <;>
    cases hp : isPublic <;>
      cases hb : i.children.any isCompoundStmt <;>
        simp [ExploreClassMembers, ReportProblem, h, hp, hb]

/-- C1 witness: the concrete public inline method `Foo` of an exported class
`Widget` yields exactly the one expected violation. -/
theorem C1_witness :
    ExploreClassMembers ["Orthanc", "Widget"]
        (CursorList.cons (inlineMethod "Foo" "Widget.h") CursorList.nil)
        true 0 0 initGlobals =
      Except.ok ⟨["Widget.h"], 1, [],
        ["Exported public method with an implementation: Orthanc::Widget::Foo()"]⟩ := by
  rw [C1_public_method_with_body_reported ["Orthanc", "Widget"]
      (inlineMethod "Foo" "Widget.h") CursorList.nil true 0 0 initGlobals
      (Or.inl rfl)]
  rfl

/-- C2: a class or struct node that is not a definition, or that has no
VisibilityAttribute child spelled "default", makes `ExploreClass` return
with the diagnostics state unchanged and no exception, whatever the class
body contains. -/
theorem C2_skipped_class_unchanged
    (child : Cursor) (fqn : List String) (s : Globals)
    (hk : child.kind = CursorKind.CLASS_DECL ∨ child.kind = CursorKind.STRUCT_DECL)
    (h : child.isDefinition = false ∨
         child.children.any isDefaultVisibilityAttr = false) :
    ExploreClass child fqn s = Except.ok s := by
  rcases child with ⟨d, cs⟩
  simp only [Cursor.kind, Cursor.data, Cursor.isDefinition, Cursor.children] at hk h
  rcases hk with hk | hk <;> rcases h with h | h <;>
    cases hd : d.isDefinition <;>
      simp_all [ExploreClass]

/-- C2 witness: a class without a visibility attribute, containing a
would-be violation and a would-be unsupported construct, is skipped whole. -/
theorem C2_witness :
    ExploreClass hiddenWidget ["Orthanc", "Hidden"] initGlobals =
      Except.ok initGlobals :=
  C2_skipped_class_unchanged _ _ _ (Or.inl rfl) (Or.inr rfl)

/-- C3 counterexample: in an exported ordinary class, a public `VAR_DECL`
member makes the run abort with an `Unsupported` exception; no
"ExportedMemberVariable"-style violation is recorded and no report is
produced, contrary to the claim. -/
theorem C3_counterexample :
    ExploreClass widgetWithStaticVar ["Orthanc", "Widget2"] initGlobals =
      Except.error (PyErr.unsupported CursorKind.VAR_DECL "Widget2.h") := by
  rfl

/-- C3 amended: a `VAR_DECL` member of an exported ordinary class aborts the
run with a fatal `Unsupported` exception regardless of the current access
specifier; no recoverable violation is recorded. -/
theorem C3_var_decl_aborts
    (fqn : List String) (i : Cursor) (rest : CursorList) (isPublic : Bool)
    (mc : Nat) (ms : Int) (s : Globals)
    (hk : i.kind = CursorKind.VAR_DECL) :
    ExploreClassMembers fqn (CursorList.cons i rest) isPublic mc ms s =
      Except.error (PyErr.unsupported CursorKind.VAR_DECL i.locationFile) := by
  simp [ExploreClassMembers, hk]

/-- C3 witness: even under a non-Public access specifier the `VAR_DECL`
member aborts the run. -/
theorem C3_witness :
    ExploreClassMembers ["Orthanc", "Widget2"]
        (CursorList.cons staticCounterVar CursorList.nil) false 0 0 initGlobals =
      Except.error (PyErr.unsupported CursorKind.VAR_DECL "Widget2.h") := by
  rw [C3_var_decl_aborts ["Orthanc", "Widget2"] staticCounterVar CursorList.nil
      false 0 0 initGlobals rfl]
  rfl

/-- C4 counterexample: an exported class with a public nested `STRUCT_DECL`
definition aborts the run as an unrecognized construct instead of being
checked recursively, contrary to the claim. -/
theorem C4_counterexample :
    ExploreClass outerWithPublicStruct ["Orthanc", "Outer"] initGlobals =
      Except.error (PyErr.unsupported CursorKind.STRUCT_DECL "Outer.h") := by
  rfl

/-- C4 amended: during the ordinary-class scan under a Public access
specifier, only a `CLASS_DECL` child is recursed into with `ExploreClass`
(extending the FQN with the child's name); a public `STRUCT_DECL` child
falls through to the unrecognized-construct branch and aborts the run. -/
theorem C4_subclass_scan
    (fqn : List String) (i : Cursor) (rest : CursorList)
    (mc : Nat) (ms : Int) (s : Globals)
    (hk : i.kind = CursorKind.CLASS_DECL ∨ i.kind = CursorKind.STRUCT_DECL) :
    ExploreClassMembers fqn (CursorList.cons i rest) true mc ms s =
      if i.kind = CursorKind.CLASS_DECL then
        match ExploreClass i (fqn ++ [i.spelling]) s with
        | Except.error e => Except.error e
        | Except.ok s2 => ExploreClassMembers fqn rest true mc ms s2
      else
        Except.error (PyErr.unsupported CursorKind.STRUCT_DECL i.locationFile) := by
  rcases hk with h | h <;> simp [ExploreClassMembers, h]

/-- C4 witness: the concrete public nested struct `Inner` aborts the scan. -/
theorem C4_witness :
    ExploreClassMembers ["Orthanc", "Outer"]
        (CursorList.cons nestedStructInner CursorList.nil) true 0 0 initGlobals =
      Except.error (PyErr.unsupported CursorKind.STRUCT_DECL "Outer.h") := by
  rw [C4_subclass_scan ["Orthanc", "Outer"] nestedStructInner CursorList.nil
      0 0 initGlobals (Or.inr rfl)]
  rfl

/-- C5: a public `FRIEND_DECL` whose single rendered declaration matches the
whitelist continues the scan with no diagnostic; a public friend that does
not consist of exactly one rendered declaration whose displayname is in the
whitelist aborts the run with a fatal error; a non-public friend never
produces a diagnostic or abort. -/
theorem C5_friend_whitelist_rules
    (fqn : List String) (i : Cursor) (rest : CursorList) (isPublic : Bool)
    (mc : Nat) (ms : Int) (s : Globals)
    (hk : i.kind = CursorKind.FRIEND_DECL) :
    (isPublic = true →
       (∃ c, i.children = CursorList.cons c CursorList.nil ∧
             c.displayname ∈ FRIEND_WHITELIST) →
       ExploreClassMembers fqn (CursorList.cons i rest) isPublic mc ms s =
         ExploreClassMembers fqn rest isPublic mc ms s) ∧
    (isPublic = true →
       (¬ ∃ c, i.children = CursorList.cons c CursorList.nil ∧
             c.displayname ∈ FRIEND_WHITELIST) →
       ExploreClassMembers fqn (CursorList.cons i rest) isPublic mc ms s =
         Except.error (PyErr.unsupported CursorKind.FRIEND_DECL i.locationFile)) ∧
    (isPublic = false →
       ExploreClassMembers fqn (CursorList.cons i rest) isPublic mc ms s =
         ExploreClassMembers fqn rest isPublic mc ms s) := by
  refine ⟨?_, ?_, ?_⟩
  · intro hp hex
    obtain ⟨c, hc, hm⟩ := hex
    simp [ExploreClassMembers, hk, hp, hc, hm]
  · intro hp hnex
    rcases hcs : i.children with _ | ⟨c, tl⟩
    · simp [ExploreClassMembers, hk, hp, hcs]
    · rcases tl with _ | ⟨c2, tl2⟩
      · have hm : c.displayname ∉ FRIEND_WHITELIST := fun hm => hnex ⟨c, hcs, hm⟩
        simp [ExploreClassMembers, hk, hp, hcs, hm]
      · simp [ExploreClassMembers, hk, hp, hcs]
  · intro hp
    simp [ExploreClassMembers, hk, hp]

/-- C5 witness: the concrete whitelisted `operator<<` friend of `DicomTag`
is accepted without any diagnostic. -/
theorem C5_witness :
    ExploreClassMembers ["Orthanc", "DicomTag"]
        (CursorList.cons whitelistedFriend CursorList.nil) true 0 0 initGlobals =
      Except.ok initGlobals := by
  have h := (C5_friend_whitelist_rules ["Orthanc", "DicomTag"] whitelistedFriend
      CursorList.nil true 0 0 initGlobals rfl).1 rfl
      ⟨dicomTagFriendFn, rfl, by decide⟩
  exact h.trans rfl

/-- C6 counterexample: two runs over translation units holding the same two
violating classes in opposite declaration order print the same set of lines
(in particular the same violations and the same sorted file list) but
different reports: the violations appear in traversal order, not sorted by
FQN text, contrary to the claim. -/
theorem C6_counterexample :
    RunScript tuBA =
      Except.ok ["",
        "Exported public method with an implementation: Orthanc::B::m()",
        "Exported public method with an implementation: Orthanc::A::m()",
        "", "Total of possibly problematic methods: 2", "",
        "Problematic files:", "",
        "A.h", "B.h", ""] ∧
    RunScript tuAB =
      Except.ok ["",
        "Exported public method with an implementation: Orthanc::A::m()",
        "Exported public method with an implementation: Orthanc::B::m()",
        "", "Total of possibly problematic methods: 2", "",
        "Problematic files:", "",
        "A.h", "B.h", ""] ∧
    sortedUnique ["",
        "Exported public method with an implementation: Orthanc::B::m()",
        "Exported public method with an implementation: Orthanc::A::m()",
        "", "Total of possibly problematic methods: 2", "",
        "Problematic files:", "",
        "A.h", "B.h", ""] =
      sortedUnique ["",
        "Exported public method with an implementation: Orthanc::A::m()",
        "Exported public method with an implementation: Orthanc::B::m()",
        "", "Total of possibly problematic methods: 2", "",
        "Problematic files:", "",
        "A.h", "B.h", ""] ∧
    (["",
        "Exported public method with an implementation: Orthanc::B::m()",
        "Exported public method with an implementation: Orthanc::A::m()",
        "", "Total of possibly problematic methods: 2", "",
        "Problematic files:", "",
        "A.h", "B.h", ""] : List String) ≠
      ["",
        "Exported public method with an implementation: Orthanc::A::m()",
        "Exported public method with an implementation: Orthanc::B::m()",
        "", "Total of possibly problematic methods: 2", "",
        "Problematic files:", "",
        "A.h", "B.h", ""] := by
  refine ⟨rfl, rfl, by decide, by decide⟩

/-- C6 amended: the final report keeps the violations exactly as printed in
traversal-emission order; only the trailing problematic-file list is
deduplicated and sorted (ascending, without duplicates, containing exactly
the touched files). -/
theorem C6_report_shape (s : Globals) :
    (∃ mid, FinalReport s = s.output ++ mid ++ sortedUnique s.FILES ++ [""]) ∧
    List.Sorted pyLeRel (sortedUnique s.FILES) ∧
    (sortedUnique s.FILES).Nodup ∧
    (∀ x, x ∈ sortedUnique s.FILES ↔ x ∈ s.FILES) := by
  refine ⟨⟨_, rfl⟩, List.sorted_insertionSort pyLeRel s.FILES.dedup,
    (List.perm_insertionSort pyLeRel s.FILES.dedup).nodup_iff.mpr s.FILES.nodup_dedup,
    fun x => ?_⟩
  rw [sortedUnique, (List.perm_insertionSort pyLeRel s.FILES.dedup).mem_iff,
    List.mem_dedup]

/-- C7 counterexample: an interface-named exported class whose only public
member is a static method with an EMPTY inline body is reported as "Not a
pure interface" (one violation), contrary to the claim that an empty inline
body does not invalidate the interface classification. -/
theorem C7_counterexample :
    ExploreClass ifooWithEmptyStatic ["Orthanc", "IFoo"] initGlobals =
      Except.ok ⟨["IFoo.h"], 1, ["Orthanc::IFoo"],
        ["Not a pure interface: Orthanc::IFoo::IFoo()"]⟩ := by
  rfl

/-- C7 amended: in the interface scan, a public non-pure-virtual static
method with ANY inline compound-statement body (empty or not) sets
`abstract` to false; a public static method with no body at all leaves the
classification untouched. -/
theorem C7_static_method_with_any_body
    (fqn : List String) (i : Cursor) (rest : CursorList) (abstract : Bool)
    (s : Globals)
    (hk : i.kind = CursorKind.CXX_METHOD)
    (hpv : i.isPureVirtualMethod = false)
    (hst : i.isStaticMethod = true) :
    (i.children.any isCompoundStmt = true →
       ExploreInterfaceMembers fqn (CursorList.cons i rest) abstract true s =
         ExploreInterfaceMembers fqn rest false true s) ∧
    (i.children.any isCompoundStmt = false →
       ExploreInterfaceMembers fqn (CursorList.cons i rest) abstract true s =
         ExploreInterfaceMembers fqn rest abstract true s) := by
  constructor <;> intro hb <;>
    simp [ExploreInterfaceMembers, hk, hpv, hst, hb]

/-- C7 witness: the concrete empty-bodied static method `Create` sets
`abstract` to false. -/
theorem C7_witness :
    ExploreInterfaceMembers ["Orthanc", "IFoo"]
        (CursorList.cons emptyBodyStaticMethod CursorList.nil) true true initGlobals =
      Except.ok (false, initGlobals) := by
  have h := (C7_static_method_with_any_body ["Orthanc", "IFoo"] emptyBodyStaticMethod
      CursorList.nil true initGlobals rfl rfl rfl).1 rfl
  exact h.trans rfl

/-- Bridge between the script's destructor-body test and its logical
reading: the children are exactly one compound statement with no statement
inside. -/
theorem destructorHasSingleEmptyBody_iff (i : Cursor) :
    destructorHasSingleEmptyBody i = true ↔
      ∃ b, i.children = CursorList.cons b CursorList.nil ∧
           b.kind = CursorKind.COMPOUND_STMT ∧ b.children.length = 0 := by
  unfold destructorHasSingleEmptyBody isCompoundStmt
  rcases hcs : i.children with _ | ⟨b, tl⟩
  · simp [hcs]
  · rcases tl with _ | ⟨b2, tl2⟩ <;> simp [hcs]

/-- C8 counterexample: an interface-named exported class whose only public
member is a virtual destructor with NO body at all is reported as "Not a
pure interface" (one violation), contrary to the claim that a bodyless
public virtual destructor keeps the PureInterface classification. -/
theorem C8_counterexample :
    ExploreClass ibarWithBodylessDestructor ["Orthanc", "IBar"] initGlobals =
      Except.ok ⟨["IBar.h"], 1, ["Orthanc::IBar"],
        ["Not a pure interface: Orthanc::IBar::IBar()"]⟩ := by
  rfl

/-- C8 amended: in the interface scan, a public destructor keeps the
classification only if it is virtual AND its children are exactly one empty
compound statement; a virtual destructor whose children are anything else -
in particular no body at all - and a non-virtual destructor both set
`abstract` to false. -/
theorem C8_destructor_needs_single_empty_body
    (fqn : List String) (i : Cursor) (rest : CursorList) (abstract : Bool)
    (s : Globals)
    (hk : i.kind = CursorKind.DESTRUCTOR) :
    (i.isVirtualMethod = true →
       (∃ b, i.children = CursorList.cons b CursorList.nil ∧
             b.kind = CursorKind.COMPOUND_STMT ∧ b.children.length = 0) →
       ExploreInterfaceMembers fqn (CursorList.cons i rest) abstract true s =
         ExploreInterfaceMembers fqn rest abstract true s) ∧
    (i.isVirtualMethod = true →
       (¬ ∃ b, i.children = CursorList.cons b CursorList.nil ∧
             b.kind = CursorKind.COMPOUND_STMT ∧ b.children.length = 0) →
       ExploreInterfaceMembers fqn (CursorList.cons i rest) abstract true s =
         ExploreInterfaceMembers fqn rest false true s) ∧
    (i.isVirtualMethod = false →
       ExploreInterfaceMembers fqn (CursorList.cons i rest) abstract true s =
         ExploreInterfaceMembers fqn rest false true s) := by
  refine ⟨?_, ?_, ?_⟩
  · intro hv hex
    have hb : destructorHasSingleEmptyBody i = true :=
      (destructorHasSingleEmptyBody_iff i).mpr hex
    simp [ExploreInterfaceMembers, hk, hv, hb]
  · intro hv hnex
    have hb : destructorHasSingleEmptyBody i = false := by
      cases h : destructorHasSingleEmptyBody i with
      | false => rfl
      | true => exact absurd ((destructorHasSingleEmptyBody_iff i).mp h) hnex
    simp [ExploreInterfaceMembers, hk, hv, hb]
  · intro hv
    simp [ExploreInterfaceMembers, hk, hv]

/-- C8 witness: the concrete virtual destructor with a single empty body
keeps `abstract` untouched. -/
theorem C8_witness :
    ExploreInterfaceMembers ["Orthanc", "IBar"]
        (CursorList.cons emptyBodyVirtualDestructor CursorList.nil) true true
        initGlobals =
      Except.ok (true, initGlobals) := by
  have h := (C8_destructor_needs_single_empty_body ["Orthanc", "IBar"]
      emptyBodyVirtualDestructor CursorList.nil true initGlobals rfl).1 rfl
      ⟨compoundStmt "IBar.h", rfl, rfl, rfl⟩
  exact h.trans rfl

/-- C9: an exported namespace-level free function with an inline body IS
reported as a violation, but the cursor handed to `ReportProblem` is the
leaked inner loop variable - the function's LAST child - instead of the
function itself: the printed member name is the compound statement's empty
spelling (the line ends in `::()` rather than `::Foo()`) and the recorded
file is that child's location.  The second and third conjuncts exhibit the
divergence: the function is named `Foo` while the cursor actually reported
has an empty spelling. -/
theorem C9_leaked_loop_variable :
    ExploreNamespaceChildren (CursorList.cons fooFreeFunction CursorList.nil)
        ["Orthanc"] initGlobals =
      Except.ok ⟨["Foo.h"], 1, [],
        ["Exported public function with an implementation: Orthanc::Foo::()"]⟩ ∧
    fooFreeFunction.spelling = "Foo" ∧
    (fooFreeFunction.children.getLastD defaultCursor).spelling = "" :=
  ⟨rfl, rfl, rfl⟩

/-- C10: for an exported `CLASS_DECL` definition whose simple name is `""`
or `"I"`, the unguarded string indexing of the interface-pattern test raises
an uncaught `IndexError` that aborts the run; for every other name the
short-circuit evaluation guards the index expressions and the pattern test
returns a value. -/
theorem C10_interface_name_index_error
    (child : Cursor) (fqn : List String) (s : Globals)
    (hk : child.kind = CursorKind.CLASS_DECL)
    (hd : child.isDefinition = true)
    (hv : child.children.any isDefaultVisibilityAttr = true) :
    ((child.spelling = "" ∨ child.spelling = "I") →
       ExploreClass child fqn s = Except.error PyErr.indexError) ∧
    (child.spelling ≠ "" → child.spelling ≠ "I" →
       ∃ b, isInterfaceName child = Except.ok b) := by
  rcases child with ⟨d, cs⟩
  simp only [Cursor.kind, Cursor.data, Cursor.isDefinition, Cursor.children,
    Cursor.spelling] at hk hd hv ⊢
  have e1 : stringIndex "" 0 = Except.error PyErr.indexError := rfl
  have e2 : stringIndex "I" 0 = Except.ok 'I' := rfl
  have e3 : stringIndex "I" 1 = Except.error PyErr.indexError := rfl
  constructor
  · intro hname
    have hiface : isInterfaceName (Cursor.node d cs) = Except.error PyErr.indexError := by
      rcases hname with h | h <;>
        simp [isInterfaceName, Cursor.kind, Cursor.data, Cursor.spelling, hk, h,
          e1, e2, e3]
    simp [ExploreClass, hk, hd, hv, hiface]
  · intro h0 hI
    cases hsp : d.spelling with
    | mk chars =>
      cases chars with
      | nil => exact absurd (hsp.trans rfl) h0
      | cons c0 rest =>
          by_cases hc0 : c0 = 'I'
          · cases rest with
            | nil =>
                subst hc0
                exact absurd (hsp.trans rfl) hI
            | cons c1 rest2 =>
                refine ⟨c1.isUpper, ?_⟩
                simp [isInterfaceName, Cursor.kind, Cursor.data, Cursor.spelling,
                  hk, hsp, stringIndex, hc0]
          · refine ⟨false, ?_⟩
            simp [isInterfaceName, Cursor.kind, Cursor.data, Cursor.spelling,
              hk, hsp, stringIndex, hc0]

/-- C10 witness: the concrete exported class named `I` aborts the run with
an `IndexError`. -/
theorem C10_witness :
    ExploreClass classNamedI ["Orthanc", "I"] initGlobals =
      Except.error PyErr.indexError :=
  (C10_interface_name_index_error classNamedI ["Orthanc", "I"] initGlobals
    rfl rfl rfl).1 (Or.inr rfl)
